import Mathlib

/-!
Verification of the build-orchestration helper in `setup.py` (habitat-sim).

The file shallowly embeds the decision-making parts of the script:

* `run_cmake` — the incremental-reconfiguration decision (`CMakeBuild.run_cmake`),
  including the regex line parser for the generator's `CMakeCache.txt`;
* the argument-cache load/merge/save behaviour of `CMakeBuild.build_extension`;
* `create_compile_commands` — compile-command aggregation, gcc→g++
  normalization, and the compare-before-write step;
* the environment-variable overrides applied in `__main__`.

Files are modelled by their contents: an `Option` is `none` when the file is
absent; fallible operations return `Except`.
-/

set_option autoImplicit false

namespace SetupPy

/-! ## CMakeCache.txt line parsing

`CMakeBuild.run_cmake` matches each cache line against the regex
`(?P<K>\w+?)(:\w+?|)=(?P<V>.*?)$` (via `re.match`, i.e. anchored at the start
of the line).  Because `\w` excludes both `:` and `=`, the match, when it
exists, is forced: `K` is the maximal leading run of word characters (and must
be non-empty), optionally followed by `:` and a non-empty run of word
characters (the type tag), then `=`, and `V` is the rest of the line with the
trailing newline (if any) excluded by `$`.  Lines produced by `readlines`
keep their trailing `"\n"`, which the parser therefore strips first.
`\w` is modelled at ASCII: letters, digits and underscore. -/

def isWordChar (c : Char) : Bool :=
  c.isAlphanum || c = '_'

/-- The regex `(?P<K>\w+?)(:\w+?|)=(?P<V>.*?)$` applied with `re.match` to one
line of `CMakeCache.txt`; `some (K, V)` on a match, `none` when the line is
skipped.  Strings are processed as their character lists so that every
operation reduces structurally. -/
def parseCacheLine (line : String) : Option (String × String) :=
  let l0 := line.data
  let l := if l0.getLast? = some '\n' then l0.dropLast else l0
  let k := l.takeWhile isWordChar
  if k.isEmpty then none
  else
    match l.drop k.length with
    | '=' :: v => some (⟨k⟩, ⟨v⟩)
    | ':' :: rest1 =>
      let t := rest1.takeWhile isWordChar
      if t.isEmpty then none
      else
        match rest1.drop t.length with
        | '=' :: v => some (⟨k⟩, ⟨v⟩)
        | _ => none
    | _ => none

/-- Python's `arg.split("=", 1)` when unpacked into two variables:
`some (before, after)` splitting at the first `=`, `none` (a `ValueError` in
the script) when the argument holds no `=`. -/
def splitEq (s : String) : Option (String × String) :=
  let k := s.data.takeWhile (fun c => c ≠ '=')
  match s.data.drop k.length with
  | '=' :: v => some (⟨k⟩, ⟨v⟩)
  | _ => none

/-- Python's `arg[0:2]`. -/
def take2 (s : String) : String :=
  ⟨s.data.take 2⟩

/-- Python's `k[2:]`. -/
def drop2 (s : String) : String :=
  ⟨s.data.drop 2⟩

/-- The inner loop of `run_cmake`: does some cache line parse to a `(K, V)`
with `K == k` and `V != v`? -/
def matchesMismatch (lines : List String) (k v : String) : Bool :=
  lines.any fun l =>
    match parseCacheLine l with
    | some kv => kv.1 == k && kv.2 != v
    | none => false

/-- The `for arg in cmake_args` loop of `run_cmake`: skip `-G` arguments,
split each remaining argument at its first `=` (a missing `=` raises), strip
the first two characters of the key (`-D`), and return `True` at the first
argument some cache line contradicts. -/
def runCmakeArgs (lines : List String) : List String → Except Unit Bool
  | [] => .ok false
  | arg :: rest =>
    if take2 arg == "-G" then runCmakeArgs lines rest
    else
      match splitEq arg with
      | none => .error ()
      | some kv =>
        if matchesMismatch lines (drop2 kv.1) kv.2 then .ok true
        else runCmakeArgs lines rest

/-- `CMakeBuild.run_cmake`: `force_cmake` is `args.force_cmake`;
`cmake_cache` is the contents of `<build_temp>/CMakeCache.txt` as the list of
lines `readlines` returns, or `none` when the file does not exist;
`cmake_args` is the argument list.  `.error ()` is the uncaught `ValueError`
from unpacking `arg.split("=", 1)`. -/
def run_cmake (force_cmake : Bool) (cmake_cache : Option (List String))
    (cmake_args : List String) : Except Unit Bool :=
  if force_cmake then .ok true
  else
    match cmake_cache with
    | none => .ok true
    | some lines => runCmakeArgs lines cmake_args

/-- One requested argument forcing reconfiguration: it is not a generator
(`-G`) flag, it splits at `=` into a key (after dropping the leading `-D`)
and a value, and some parsed cache line has the same key with a different
value. -/
def argMismatch (lines : List String) (arg : String) : Bool :=
  !(take2 arg == "-G") &&
    (match splitEq arg with
     | none => false
     | some kv => matchesMismatch lines (drop2 kv.1) kv.2)

instance : DecidableEq (Except Unit Bool) := fun a b =>
  match a, b with
  | .ok x, .ok y =>
    if h : x = y then .isTrue (by rw [h]) else .isFalse (by simp [h])
  | .error x, .error y => .isTrue (by cases x; cases y; rfl)
  | .ok _, .error _ => .isFalse (by simp)
  | .error _, .ok _ => .isFalse (by simp)

/-! ## Argument cache (`CMakeBuild.build_extension`, lines 135–143 and 209–210)

The cache file `setuppy_args.json` holds a JSON object mapping option names
to booleans or strings.  A Python value stored in it is modelled by `PyVal`;
the parsed `args` namespace is modelled as a total map from attribute name to
`PyVal` (every option has a default).  A file is `none` when absent; an
existing file's contents are `some none` when `json.load` would raise
(malformed) and `some (some kvs)` when it parses to the association list
`kvs`. -/

inductive PyVal where
  | bool : Bool → PyVal
  | str : String → PyVal
deriving DecidableEq

def ARG_CACHE_BLACKLIST : List String := ["force_cmake"]

/-- The loop `for k, v in cached_args.items(): if k not in ARG_CACHE_BLACKLIST:
setattr(args, k, v)`: items are applied in order (later ones overwrite earlier
ones), blacklisted keys are skipped. -/
def applyCachedArgs (current : String → PyVal) :
    List (String × PyVal) → String → PyVal
  | [] => current
  | kv :: rest =>
    applyCachedArgs
      (if kv.1 ∈ ARG_CACHE_BLACKLIST then current
       else fun key => if key = kv.1 then kv.2 else current key)
      rest

/-- The guard `if not is_pip() and not args.no_cached_args and
osp.exists(args_cache_file)` followed by `json.load`: `.ok none` when the
cached arguments are not restored, `.ok (some kvs)` when the file is read and
parses, `.error ()` for the uncaught `json` deserialization error. -/
def cacheLoad (is_pip no_cached_args : Bool)
    (file : Option (Option (List (String × PyVal)))) :
    Except Unit (Option (List (String × PyVal))) :=
  if !is_pip && !no_cached_args && file.isSome then
    match file with
    | some (some kvs) => .ok (some kvs)
    | some none => .error ()
    | none => .ok none
  else .ok none

/-- The effective `args` namespace after the cache-restore block at the top of
`build_extension`. -/
def effectiveArgs (is_pip no_cached_args : Bool)
    (file : Option (Option (List (String × PyVal))))
    (current : String → PyVal) : Except Unit (String → PyVal) :=
  match cacheLoad is_pip no_cached_args file with
  | .error e => .error e
  | .ok none => .ok current
  | .ok (some kvs) => .ok (applyCachedArgs current kvs)

/-! ## Effect sequence of `build_extension` (lines 180–210)

After the cache restore, `build_extension` optionally reruns the configure
step, always runs the build step, and then — except on pip-driven
invocations, which return early — creates the symlinks, merges the compile
commands, and writes `vars(args)` back to the cache file.  `no_cached_args`
is in scope throughout but is never consulted after the load. -/

inductive BuildEffect where
  | configure
  | build
  | viewerLink
  | utilsLink
  | compileCommands
  | saveCache
deriving DecidableEq

/-- The ordered external effects of a `build_extension` call that runs to the
end of a successful build; `reconfigure` is the value `run_cmake` returned. -/
def buildExtensionEffects (reconfigure is_pip headless no_cached_args : Bool)
    (viewerLinkExists utilsLinkExists : Bool) : List BuildEffect :=
  (if reconfigure then [.configure] else []) ++ [.build] ++
    (if is_pip then []
     else
       (if !headless && !viewerLinkExists then [.viewerLink] else []) ++
         (if !utilsLinkExists then [.utilsLink] else []) ++
         [.compileCommands, .saveCache])

/-! ## `CMakeBuild.create_compile_commands` (lines 243–266)

A compile-command record is the `{directory, command, file}` triple of the
compile-command database.  The input is the list of per-module
`compile_commands.json` contents in glob-discovery order; the destination
file is `none` when absent.  Serialization models `json.dumps(all_commands,
indent=2)` with the record keys in their file order. -/

structure CompileCommand where
  directory : String
  command : String
  file : String
deriving DecidableEq

/-- The gcc→g++ rewrite applied to one `command` string:
`if command["command"].startswith("gcc "): command["command"] = "g++ " +
command["command"][4:]`. -/
def normalizeCommand (c : String) : String :=
  if c.data.take 4 = "gcc ".data then ⟨"g++ ".data ++ c.data.drop 4⟩ else c

/-- The rewrite at record level: only the `command` field is touched. -/
def normalizeRecord (r : CompileCommand) : CompileCommand :=
  { r with command := normalizeCommand r.command }

/-- JSON string escaping as `json.dumps` performs it for the characters that
occur here (backslash, quote, newline; other control characters are not
modelled). -/
def jsonEscapeChar (c : Char) : List Char :=
  if c = '\\' then ['\\', '\\']
  else if c = '"' then ['\\', '"']
  else if c = '\n' then ['\\', 'n']
  else [c]

def jsonStr (s : String) : String :=
  ⟨'"' :: (s.data.flatMap jsonEscapeChar) ++ ['"']⟩

/-- One record as `json.dumps` renders it at `indent=2` (keys in file
order). -/
def recordJson (r : CompileCommand) : String :=
  "  \x7b\n    " ++ jsonStr "directory" ++ ": " ++ jsonStr r.directory ++
    ",\n    " ++ jsonStr "command" ++ ": " ++ jsonStr r.command ++
    ",\n    " ++ jsonStr "file" ++ ": " ++ jsonStr r.file ++ "\n  \x7d"

/-- `json.dumps(all_commands, indent=2)`. -/
def serializeCommands : List CompileCommand → String
  | [] => "[]"
  | rs => "[\n" ++ String.intercalate ",\n" (rs.map recordJson) ++ "\n]"

/-- The full `create_compile_commands` step: concatenate the per-module
record lists in discovery order, normalize each record, serialize, and write
the destination only when its current content (empty when the file is
absent) differs.  Returns the resulting destination content and whether a
write was performed. -/
def create_compile_commands (files : List (List CompileCommand))
    (disk : Option String) : String × Bool :=
  let all_commands := files.flatten.map normalizeRecord
  let new_contents := serializeCommands all_commands
  let contents := disk.getD ""
  if contents ≠ new_contents then (new_contents, true) else (contents, false)

/-! ## Environment-variable overrides (`__main__`, lines 274–278) -/

/-- Python's `str.lower()`, modelled at ASCII. -/
def lowerStr (s : String) : String :=
  ⟨s.data.map Char.toLower⟩

/-- `if os.environ.get("HEADLESS", "").lower() == "true": args.headless = True`
— the headless toggle after the environment check. -/
def effectiveHeadless (env_headless : Option String)
    (flag_headless : Bool) : Bool :=
  if lowerStr (env_headless.getD "") == "true" then true else flag_headless

/-- `if os.environ.get("CMAKE_ARGS", None) is not None: args.cmake_args =
os.environ["CMAKE_ARGS"]` — the passthrough string after the environment
check. -/
def effectiveCmakeArgs (env_cmake_args : Option String)
    (flag_cmake_args : String) : String :=
  match env_cmake_args with
  | some v => v
  | none => flag_cmake_args

/-! ## Theorems on the reconfiguration decision -/

/-- Under the precondition that every non-`-G` argument holds an `=`, the
argument loop of `run_cmake` returns exactly "some argument mismatches a
parsed cache line". -/
theorem runCmakeArgs_eq_any (lines : List String) (cargs : List String)
    (h : ∀ a ∈ cargs, (take2 a == "-G") = false → (splitEq a).isSome = true) :
    runCmakeArgs lines cargs = .ok (cargs.any (argMismatch lines)) := by
  induction cargs with
  | nil => rfl
  | cons arg rest ih =>
    have hrest : ∀ a ∈ rest, (take2 a == "-G") = false → (splitEq a).isSome = true :=
      fun a ha => h a (List.mem_cons_of_mem _ ha)
    cases hG : (take2 arg == "-G") with
    | true => simp [runCmakeArgs, hG, argMismatch, ih hrest]
    | false =>
      cases hsp : splitEq arg with
      | none =>
        exact absurd (h arg (List.mem_cons_self _ _) hG) (by simp [hsp])
      | some kv =>
        cases hm : matchesMismatch lines (drop2 kv.1) kv.2 with
        | true => simp [runCmakeArgs, hG, hsp, hm, argMismatch]
        | false => simp [runCmakeArgs, hG, hsp, hm, argMismatch, ih hrest]

example : parseCacheLine "A:STRING=1\n" = some ("A", "1") := by decide
example : parseCacheLine "B:STRING=3" = some ("B", "3") := by decide
example : parseCacheLine "// comment" = none := by decide
example : parseCacheLine "A:T:U=v" = none := by decide
example : splitEq "-DA=1" = some ("-DA", "1") := by decide
example : splitEq "-Wno-dev" = none := by decide
example :
    run_cmake false (some ["A:STRING=1\n", "B:STRING=3"]) ["-DA=1", "-DB=2"]
      = .ok true := by decide
example :
    run_cmake false (some ["A:STRING=1\n", "B:STRING=2"]) ["-DA=1", "-DB=2"]
      = .ok false := by decide

/-- C1: with the force flag unset and an existing generator state file,
`run_cmake` returns true iff some requested argument outside the `-G` family
has a parsed state-file line with the same key (after stripping the leading
`-D`) but a different value; in particular the two concrete examples from the
spec.  The precondition `h` restricts to invocations whose non-`-G` arguments
are `key=value` pairs (without it the source raises, see C9). -/
theorem run_cmake_true_iff_mismatch (lines cargs : List String)
    (h : ∀ a ∈ cargs, (take2 a == "-G") = false → (splitEq a).isSome = true) :
    (run_cmake false (some lines) cargs = .ok true
      ↔ ∃ a ∈ cargs, argMismatch lines a = true)
    ∧ run_cmake false (some ["A:STRING=1\n", "B:STRING=3"]) ["-DA=1", "-DB=2"]
        = .ok true
    ∧ run_cmake false (some ["A:STRING=1\n", "B:STRING=2"]) ["-DA=1", "-DB=2"]
        = .ok false := by
  refine ⟨?_, by decide, by decide⟩
  rw [show run_cmake false (some lines) cargs = runCmakeArgs lines cargs from rfl,
    runCmakeArgs_eq_any lines cargs h]
  simp [List.any_eq_true]

/-- Witness for C1 at the spec's concrete inputs. -/
theorem run_cmake_true_iff_mismatch_witness :
    (run_cmake false (some ["A:STRING=1\n", "B:STRING=3"]) ["-DA=1", "-DB=2"]
        = .ok true
      ↔ ∃ a ∈ ["-DA=1", "-DB=2"],
          argMismatch ["A:STRING=1\n", "B:STRING=3"] a = true)
    ∧ run_cmake false (some ["A:STRING=1\n", "B:STRING=3"]) ["-DA=1", "-DB=2"]
        = .ok true
    ∧ run_cmake false (some ["A:STRING=1\n", "B:STRING=2"]) ["-DA=1", "-DB=2"]
        = .ok false :=
  run_cmake_true_iff_mismatch ["A:STRING=1\n", "B:STRING=3"] ["-DA=1", "-DB=2"]
    (by decide)

/-- C8: if the force flag is set, `run_cmake` returns true for every cache
state (including an absent file) and every argument list, without consulting
either. -/
theorem run_cmake_force_true (cache : Option (List String))
    (cargs : List String) : run_cmake true cache cargs = .ok true := rfl

/-- C9: the reconfiguration decision is total when every requested non-`-G`
argument holds an `=` (first conjunct); with the force flag unset and an
existing state file, a non-`-G` argument without `=` — such as `-Wno-dev`
passed through `--cmake-args` — raises an unhandled `ValueError` instead of
returning a boolean (second conjunct). -/
theorem run_cmake_total_iff_eq_args (lines cargs : List String) :
    ((∀ a ∈ cargs, (take2 a == "-G") = false → (splitEq a).isSome = true) →
      ∃ b, run_cmake false (some lines) cargs = .ok b)
    ∧ run_cmake false (some ["A:STRING=1\n"]) ["-Wno-dev"] = .error () := by
  refine ⟨fun h => ⟨cargs.any (argMismatch lines), ?_⟩, by decide⟩
  rw [show run_cmake false (some lines) cargs = runCmakeArgs lines cargs from rfl,
    runCmakeArgs_eq_any lines cargs h]

/-- Witness for C9: totality holds at a concrete well-formed invocation, and
the `-Wno-dev` invocation errors. -/
theorem run_cmake_total_iff_eq_args_witness :
    (∃ b, run_cmake false (some ["A:STRING=1\n"]) ["-DA=1", "-GNinja"] = .ok b)
    ∧ run_cmake false (some ["A:STRING=1\n"]) ["-Wno-dev"] = .error () :=
  ⟨(run_cmake_total_iff_eq_args ["A:STRING=1\n"] ["-DA=1", "-GNinja"]).1
      (by decide),
    (run_cmake_total_iff_eq_args ["A:STRING=1\n"] ["-Wno-dev"]).2⟩

/-! ## Theorems on the argument cache and the orchestrator tail -/

theorem applyCachedArgs_blacklisted :
    ∀ (cached : List (String × PyVal)) (current : String → PyVal)
      (key : String), key ∈ ARG_CACHE_BLACKLIST →
      applyCachedArgs current cached key = current key := by
  intro cached
  induction cached with
  | nil => intro current key _; rfl
  | cons kv rest ih =>
    intro current key hkey
    simp only [applyCachedArgs]
    rw [ih _ key hkey]
    by_cases hb : kv.1 ∈ ARG_CACHE_BLACKLIST
    · simp [hb]
    · have hne : key ≠ kv.1 := fun he => hb (he ▸ hkey)
      simp [hb, hne]

/-- C3: a blacklisted key (`force_cmake`) is never copied from the persisted
configuration: whatever the invocation flags and the cache-file contents, the
effective value of a blacklisted key is the current invocation's value. -/
theorem blacklisted_key_never_restored (is_pip no_cached_args : Bool)
    (file : Option (Option (List (String × PyVal))))
    (current cfg : String → PyVal) (key : String)
    (hkey : key ∈ ARG_CACHE_BLACKLIST)
    (h : effectiveArgs is_pip no_cached_args file current = .ok cfg) :
    cfg key = current key := by
  unfold effectiveArgs at h
  cases hc : cacheLoad is_pip no_cached_args file with
  | error e => rw [hc] at h; cases h
  | ok o =>
    rw [hc] at h
    cases o with
    | none =>
      simp only [Except.ok.injEq] at h
      rw [← h]
    | some kvs =>
      simp only [Except.ok.injEq] at h
      rw [← h]
      exact applyCachedArgs_blacklisted kvs current key hkey

/-- Witness for C3: a persisted `force_cmake = true` is not replayed over the
current `force_cmake = false`. -/
theorem blacklisted_key_never_restored_witness :
    applyCachedArgs (fun _ => PyVal.bool false)
        [("force_cmake", PyVal.bool true), ("headless", PyVal.bool true)]
        "force_cmake"
      = (fun _ => PyVal.bool false) "force_cmake" :=
  blacklisted_key_never_restored false false
    (some (some [("force_cmake", PyVal.bool true), ("headless", PyVal.bool true)]))
    (fun _ => PyVal.bool false) _ "force_cmake" (by decide) rfl

/-- C6: the cache load applies nothing (and raises nothing) when the file is
absent, when caching is disabled, or on a pip-driven invocation, and it fails
if and only if the file exists, is eligible to load, and is malformed. -/
theorem cacheLoad_semantics (is_pip no_cached_args : Bool)
    (file : Option (Option (List (String × PyVal)))) :
    ((file = none ∨ no_cached_args = true ∨ is_pip = true) →
        cacheLoad is_pip no_cached_args file = .ok none)
    ∧ ((∃ e, cacheLoad is_pip no_cached_args file = .error e)
        ↔ is_pip = false ∧ no_cached_args = false ∧ file = some none) := by
  cases is_pip <;> cases no_cached_args <;>
    rcases file with _ | _ | kvs <;>
    simp [cacheLoad]

/-- Witness for C6: a pip-driven invocation loads nothing even from a
malformed existing file. -/
theorem cacheLoad_semantics_witness :
    cacheLoad true false (some none) = .ok none :=
  (cacheLoad_semantics true false (some none)).1 (Or.inr (Or.inr rfl))

/-- C2 counterexample: with the skip-cached-args toggle set, on a non-pip
invocation that reaches the end of a successful build, the save to the
argument-cache file still occurs. -/
theorem saveCache_despite_no_cached_args :
    BuildEffect.saveCache ∈ buildExtensionEffects false false false true false false := by
  decide

/-- C2 amended: the effective configuration is written back at the end of a
successful build if and only if the invocation is not pip-driven; the
skip-cached-args toggle disables only the load, never the save. -/
theorem saveCache_iff_not_pip
    (reconfigure is_pip headless no_cached_args vl ul : Bool) :
    (BuildEffect.saveCache
        ∈ buildExtensionEffects reconfigure is_pip headless no_cached_args vl ul)
      ↔ is_pip = false := by
  cases reconfigure <;> cases is_pip <;> cases headless <;>
    cases no_cached_args <;> cases vl <;> cases ul <;> decide

/-- C7 counterexample: `HEADLESS=false` present in the environment together
with the `--headless` flag yields an effective toggle of `true` — the
environment-supplied value (false) does not take precedence. -/
theorem headless_env_value_not_authoritative :
    effectiveHeadless (some "false") true = true
      ∧ effectiveHeadless (some "false") true ≠ false := by
  decide

/-- C7 amended: a present `CMAKE_ARGS` always overrides the flag; a present
`HEADLESS` forces the headless toggle to true exactly when its lowercased
value is `"true"`, and otherwise leaves the flag value in effect. -/
theorem env_override_semantics (v : String) (flag_headless : Bool)
    (flag_cmake_args : String) :
    effectiveCmakeArgs (some v) flag_cmake_args = v
    ∧ ((lowerStr v == "true") = true →
        effectiveHeadless (some v) flag_headless = true)
    ∧ ((lowerStr v == "true") = false →
        effectiveHeadless (some v) flag_headless = flag_headless) := by
  refine ⟨rfl, fun h => ?_, fun h => ?_⟩ <;>
    simp [effectiveHeadless, h]

/-- Witness for C7's amended statement: `HEADLESS=TRUE` forces headless on,
`HEADLESS=false` leaves the flag in charge, `CMAKE_ARGS` overrides. -/
theorem env_override_semantics_witness :
    effectiveCmakeArgs (some "-DX=1") "" = "-DX=1"
    ∧ effectiveHeadless (some "TRUE") false = true
    ∧ effectiveHeadless (some "false") true = true :=
  ⟨(env_override_semantics "-DX=1" false "").1,
    (env_override_semantics "TRUE" false "").2.1 (by decide),
    (env_override_semantics "false" true "").2.2 (by decide)⟩

/-! ## Theorems on the compile-command merger -/

/-- C4: the merge is deterministic (the serialized output is a function of
the input record lists), the destination is written only when its content
differs byte-for-byte from the new serialization, and a second run over the
same inputs performs no write and leaves the content unchanged. -/
theorem create_compile_commands_idempotent (files : List (List CompileCommand))
    (disk : Option String) :
    (create_compile_commands files disk).1
        = serializeCommands (files.flatten.map normalizeRecord)
    ∧ ((create_compile_commands files disk).2 = true
        ↔ disk.getD "" ≠ serializeCommands (files.flatten.map normalizeRecord))
    ∧ create_compile_commands files (some (create_compile_commands files disk).1)
        = ((create_compile_commands files disk).1, false) := by
  have key : ∀ d : Option String,
      create_compile_commands files d
        = (serializeCommands (files.flatten.map normalizeRecord),
            decide (d.getD "" ≠ serializeCommands (files.flatten.map normalizeRecord))) := by
    intro d
    unfold create_compile_commands
    by_cases h : d.getD "" = serializeCommands (files.flatten.map normalizeRecord)
    · rw [if_neg (not_not_intro h), h]
      simp
    · rw [if_pos h, decide_eq_true h]
  refine ⟨by rw [key disk], ?_, ?_⟩
  · rw [key disk]
    simp
  · rw [key disk, key]
    simp

/-- C5: a record whose command begins with `gcc ` has exactly that prefix
rewritten to `g++ ` with the rest of the command (and the other fields)
untouched; any other record is left entirely unchanged; in particular the
spec's two examples. -/
theorem normalizeRecord_gcc_rewrite (r : CompileCommand) :
    (r.command.data.take 4 = "gcc ".data →
      normalizeRecord r
        = { r with command := ⟨"g++ ".data ++ r.command.data.drop 4⟩ })
    ∧ (r.command.data.take 4 ≠ "gcc ".data → normalizeRecord r = r)
    ∧ normalizeCommand "gcc -c a.cpp" = "g++ -c a.cpp"
    ∧ normalizeCommand "clang -c a.c" = "clang -c a.c" := by
  refine ⟨fun h => ?_, fun h => ?_, by decide, by decide⟩
  · simp [normalizeRecord, normalizeCommand, h]
  · simp [normalizeRecord, normalizeCommand, h]

/-- Witness for C5 at a concrete record. -/
theorem normalizeRecord_gcc_rewrite_witness :
    normalizeRecord ⟨"/b", "gcc -c a.cpp", "a.cpp"⟩
      = ({ directory := "/b",
           command := ⟨"g++ ".data ++ "gcc -c a.cpp".data.drop 4⟩,
           file := "a.cpp" } : CompileCommand) :=
  (normalizeRecord_gcc_rewrite ⟨"/b", "gcc -c a.cpp", "a.cpp"⟩).1 (by decide)

/-- C10: the rewrite matches only the exact four-character prefix `gcc ` —
`gcc` alone, a path such as `/usr/bin/gcc`, and a variant such as `gcc-9` are
unchanged — and on a match it replaces exactly the first four characters with
`g++ `, preserving every character from index 4 on verbatim. -/
theorem normalizeCommand_exact_match (c : String) :
    (c.data.take 4 = "gcc ".data →
      normalizeCommand c = ⟨"g++ ".data ++ c.data.drop 4⟩)
    ∧ (c.data.take 4 ≠ "gcc ".data → normalizeCommand c = c)
    ∧ normalizeCommand "gcc" = "gcc"
    ∧ normalizeCommand "/usr/bin/gcc -c a.c" = "/usr/bin/gcc -c a.c"
    ∧ normalizeCommand "gcc-9 -c a.c" = "gcc-9 -c a.c" := by
  refine ⟨fun h => ?_, fun h => ?_, by decide, by decide, by decide⟩
  · simp [normalizeCommand, h]
  · simp [normalizeCommand, h]

/-- Witness for C10 at a concrete command string. -/
theorem normalizeCommand_exact_match_witness :
    normalizeCommand "gcc -O2 -c b.cpp"
      = ⟨"g++ ".data ++ "gcc -O2 -c b.cpp".data.drop 4⟩ :=
  (normalizeCommand_exact_match "gcc -O2 -c b.cpp").1 (by decide)

end SetupPy
